import Mathlib

/-!
Shallow embedding of `modules/planning/tasks/deciders/decider_creep.cc`
(Apollo planning, `DeciderCreep`), together with theorems checking the
natural-language specification against it.

Doubles are modelled as rationals (`ℚ`); the claims only involve exact
additions, subtractions and comparisons, which the embedding mirrors.
The static member `creep_clear_counter_` (a `uint32_t`) is modelled as an
explicit `Nat` state threaded through `CheckCreepDone`, with the increment
reduced mod 2^32 as on the machine.  External collaborators (obstacle
creation, obstacle registration, reference-point lookup, overlap refresh)
are modelled as function-valued fields of the `Frame` / `ReferenceLineInfo`
records, so that every branch of the C++ code is representable.
-/

/-- Configuration block `decider_creep_config` consumed by the decider
(`stop_distance`, `max_valid_stop_distance`, `min_boundary_t`,
`ignore_max_st_min_t`, `ignore_min_st_min_s`). -/
structure DeciderCreepConfig where
  stop_distance : ℚ
  max_valid_stop_distance : ℚ
  min_boundary_t : ℚ
  ignore_max_st_min_t : ℚ
  ignore_min_st_min_s : ℚ
  deriving DecidableEq

/-- The slice of an obstacle's `reference_line_st_boundary()` read by
`CheckCreepDone`: `min_t()`, `min_s()`, `bottom_left_point().s()`,
`bottom_right_point().s()`. -/
structure STBoundary where
  min_t : ℚ
  min_s : ℚ
  bottom_left_s : ℚ
  bottom_right_s : ℚ
  deriving DecidableEq

/-- The slice of an `Obstacle` read by the decider: `Id()`, `IsVirtual()`,
`IsStatic()` and its reference-line ST boundary. -/
structure Obstacle where
  id : String
  is_virtual : Bool
  is_static : Bool
  st : STBoundary
  deriving DecidableEq

/-- A reference point `{x, y, heading}` returned by
`reference_line().GetReferencePoint(s)`. -/
structure ReferencePoint where
  x : ℚ
  y : ℚ
  heading : ℚ
  deriving DecidableEq

/-- A `hdmap::PathOverlap`: `{object_id, start_s, end_s}`.  Only `end_s`
is read by this decider. -/
structure PathOverlap where
  object_id : String
  start_s : ℚ
  end_s : ℚ
  deriving DecidableEq

/-- The slice of `ReferenceLineInfo` the decider touches.
`refreshStopSignOverlap` models the external
`scenario::util::RefreshOverlapOnReferenceLine(rli, id, STOP_SIGN)` call
(its definition is not under `src/`): it resolves a stop-sign overlap id
against the current reference line, returning the overlap when found.
`addObstacle` models `ReferenceLineInfo::AddObstacle`, returning the stored
obstacle on success.  `getReferencePoint` models
`reference_line().GetReferencePoint`.  `adc_sl_boundary_end_s` is
`AdcSlBoundary().end_s()` and `obstacles` is
`path_decision().obstacles().Items()`. -/
structure ReferenceLineInfo where
  adc_sl_boundary_end_s : ℚ
  obstacles : List Obstacle
  addObstacle : Obstacle → Option Obstacle
  getReferencePoint : ℚ → ReferencePoint
  refreshStopSignOverlap : String → Option PathOverlap

/-- The slice of `Frame` the decider touches: `CreateStopObstacle`,
which creates a virtual stop-wall obstacle at a given `s`, returning it on
success and `none` on failure. -/
structure Frame where
  createStopObstacle : ReferenceLineInfo → String → ℚ → Option Obstacle

/-- `StopReasonCode` values relevant here (from the decision proto). -/
inductive StopReasonCode where
  | STOP_REASON_STOP_SIGN
  | STOP_REASON_SIGNAL
  | STOP_REASON_CREEPER
  | STOP_REASON_OBSTACLE
  deriving DecidableEq

/-- The longitudinal stop decision built by `BuildStopDecision`:
`reason_code`, `distance_s`, `stop_heading`, `stop_point{x,y,z}`. -/
structure ObjectStop where
  reason_code : StopReasonCode
  distance_s : ℚ
  stop_heading : ℚ
  stop_point_x : ℚ
  stop_point_y : ℚ
  stop_point_z : ℚ
  deriving DecidableEq

/-- Return status of `Process` (`common::Status`): OK or an error. -/
inductive Status where
  | ok
  | internalError (msg : String)
  deriving DecidableEq

/-- Modelled from the spec: the fixed virtual-obstacle id prefix
`CREEP_VO_ID_PREFIX` is declared in `decider_creep.h`, which is not under
`src/`; the spec describes the id as a fixed prefix plus the suffix
`"SS"`. -/
def creepVoIdPrefixStr : String := "CREEP_"

/-- `DeciderCreep::FindCreepDistance` (decider_creep.cc:75-79): the
placeholder creep-distance formula, a constant 0.5 for every frame and
reference line. -/
def FindCreepDistance (frame : Frame)
    (reference_line_info : ReferenceLineInfo) : ℚ :=
  1/2

/-- The creep stop position `creep_stop_s = stop_line_s +
FindCreepDistance(frame, reference_line_info)`, as computed inline both in
`BuildStopDecision` (decider_creep.cc:88-89) and in `CheckCreepDone`
(decider_creep.cc:134-135). -/
def creepStopS (frame : Frame) (reference_line_info : ReferenceLineInfo)
    (stop_line_s : ℚ) : ℚ :=
  stop_line_s + FindCreepDistance frame reference_line_info

/-- The `kepsilon` constant of `CheckCreepDone` (decider_creep.cc:149),
`1e-6`. -/
def kepsilon : ℚ := 1/1000000

/-- The body of the obstacle scan in `CheckCreepDone`
(decider_creep.cc:142-170): an obstacle makes `all_far_away` false exactly
when it is neither virtual nor static, its ST-boundary `min_t` is below
`min_boundary_t`, and it does not match the ignore branch
(`obstacle_traveled_s < kepsilon` and `min_t < ignore_max_st_min_t` and
`min_s > ignore_min_st_min_s`). -/
def obstacleBlocks (cfg : DeciderCreepConfig) (ob : Obstacle) : Bool :=
  if ob.is_virtual || ob.is_static then
    false
  else if ob.st.min_t < cfg.min_boundary_t then
    let obstacle_traveled_s := ob.st.bottom_left_s - ob.st.bottom_right_s
    if obstacle_traveled_s < kepsilon ∧
        ob.st.min_t < cfg.ignore_max_st_min_t ∧
        ob.st.min_s > cfg.ignore_min_st_min_s then
      false
    else
      true
  else
    false

/-- The `all_far_away` result of the obstacle loop in `CheckCreepDone`
(decider_creep.cc:141-171): true when no obstacle in the list blocks
(the loop's early break agrees with the short-circuit of `List.all`). -/
def allFarAway (cfg : DeciderCreepConfig) (obstacles : List Obstacle) : Bool :=
  obstacles.all fun ob => ! obstacleBlocks cfg ob

/-- The inputs of one `CheckCreepDone` call (decider_creep.cc:127-131). -/
structure CreepQuery where
  frame : Frame
  rli : ReferenceLineInfo
  stop_sign_overlap_end_s : ℚ
  wait_time_sec : ℚ
  timeout_sec : ℚ

/-- The gate condition of `CheckCreepDone` (decider_creep.cc:137-140):
`creep_stop_s - AdcSlBoundary().end_s() < max_valid_stop_distance ||
wait_time_sec >= timeout_sec`. -/
def creepGate (cfg : DeciderCreepConfig) (q : CreepQuery) : Bool :=
  decide (creepStopS q.frame q.rli q.stop_sign_overlap_end_s
      - q.rli.adc_sl_boundary_end_s < cfg.max_valid_stop_distance)
  || decide (q.wait_time_sec ≥ q.timeout_sec)

/-- `DeciderCreep::CheckCreepDone` (decider_creep.cc:127-180), with the
static `creep_clear_counter_` passed and returned explicitly.  When the
gate holds, the counter becomes `counter + 1` (mod 2^32, the width of the
`uint32_t` member) if every obstacle is far away and `0` otherwise; if the
updated counter reaches 5 it is reset to 0 and the call reports creep
done.  When the gate fails, the counter is untouched and the call reports
not done. -/
def CheckCreepDone (cfg : DeciderCreepConfig) (q : CreepQuery)
    (creep_clear_counter : ℕ) : Bool × ℕ :=
  if creepGate cfg q then
    let all_far_away := allFarAway cfg q.rli.obstacles
    let counter :=
      if all_far_away then (creep_clear_counter + 1) % 4294967296 else 0
    if 5 ≤ counter then (true, 0) else (false, counter)
  else
    (false, creep_clear_counter)

/-- `DeciderCreep::BuildStopDecision` (decider_creep.cc:82-125).  Returns
the success flag and, when a stop decision was attached, the
`AddLongitudinalDecision` record `(tag, obstacle id, stop decision)`; a
creation or registration failure yields `(false, none)`. -/
def BuildStopDecision (cfg : DeciderCreepConfig) (stop_line_s : ℚ)
    (frame : Frame) (reference_line_info : ReferenceLineInfo) :
    Bool × Option (String × String × ObjectStop) :=
  let creep_stop_s := creepStopS frame reference_line_info stop_line_s
  let virtual_obstacle_id := creepVoIdPrefixStr ++ "SS"
  match frame.createStopObstacle reference_line_info virtual_obstacle_id
      creep_stop_s with
  | none => (false, none)
  | some obstacle =>
    match reference_line_info.addObstacle obstacle with
    | none => (false, none)
    | some stop_wall =>
      let stop_distance := cfg.stop_distance
      let stop_s := creep_stop_s - stop_distance
      let stop_point := reference_line_info.getReferencePoint stop_s
      let stop_heading :=
        (reference_line_info.getReferencePoint stop_s).heading
      let stop : ObjectStop :=
        { reason_code := StopReasonCode.STOP_REASON_CREEPER
          distance_s := -stop_distance
          stop_heading := stop_heading
          stop_point_x := stop_point.x
          stop_point_y := stop_point.y
          stop_point_z := 0 }
      (true, some ("Creeper", stop_wall.id, stop))

/-- The `stop_line_s` computation of `DeciderCreep::Process`
(decider_creep.cc:48-67): stop-sign overlap id (from the planning status)
takes priority and is re-resolved on the current reference line; only when
it is empty does the first current traffic-light overlap provide the stop
line; otherwise 0. -/
def processStopLineS (reference_line_info : ReferenceLineInfo)
    (stop_sign_overlap_id : String)
    (traffic_light_overlaps : List PathOverlap) : ℚ :=
  if ! stop_sign_overlap_id.isEmpty then
    match reference_line_info.refreshStopSignOverlap stop_sign_overlap_id with
    | some ov => ov.end_s
    | none => 0
  else
    match traffic_light_overlaps with
    | ov :: _ => ov.end_s
    | [] => 0

/-- `DeciderCreep::Process` (decider_creep.cc:43-73): computes
`stop_line_s`; when positive, runs `BuildStopDecision` (whose boolean
result the C++ code discards); always returns `Status::OK()`.  The second
component records the build outcome so the side effect stays observable in
the embedding. -/
def Process (cfg : DeciderCreepConfig) (stop_sign_overlap_id : String)
    (traffic_light_overlaps : List PathOverlap)
    (frame : Frame) (reference_line_info : ReferenceLineInfo) :
    Status × Option (Bool × Option (String × String × ObjectStop)) :=
  let stop_line_s :=
    processStopLineS reference_line_info stop_sign_overlap_id
      traffic_light_overlaps
  if stop_line_s > 0 then
    (Status.ok,
     some (BuildStopDecision cfg stop_line_s frame reference_line_info))
  else
    (Status.ok, none)

/-! ### Concrete fixtures used by witnesses -/

/-- A concrete configuration used by witnesses. -/
def cfgW : DeciderCreepConfig :=
  { stop_distance := 1, max_valid_stop_distance := 2, min_boundary_t := 6,
    ignore_max_st_min_t := 5, ignore_min_st_min_s := 15 }

/-- A concrete frame whose obstacle creation always fails. -/
def frameFailW : Frame := { createStopObstacle := fun _ _ _ => none }

/-- A concrete reference point. -/
def rpW : ReferencePoint := { x := 3, y := 4, heading := 1/4 }

/-- A concrete reference line with no obstacles; the ego rear is at
`s = 50.5`. -/
def rliClearW : ReferenceLineInfo :=
  { adc_sl_boundary_end_s := 101/2, obstacles := [],
    addObstacle := fun ob => some ob,
    getReferencePoint := fun _ => rpW,
    refreshStopSignOverlap := fun _ => none }

/-- A clearance query with no obstacles whose gate holds through the
timeout branch: `distance_to_go = 50`, `wait_time_sec = 20`,
`timeout_sec = 15`. -/
def qClearW : CreepQuery :=
  { frame := frameFailW, rli := rliClearW, stop_sign_overlap_end_s := 100,
    wait_time_sec := 20, timeout_sec := 15 }

/-- The same geometry as `qClearW` but with `wait_time_sec = 3`, so
neither branch of the gate holds. -/
def qGateOffW : CreepQuery :=
  { frame := frameFailW, rli := rliClearW, stop_sign_overlap_end_s := 100,
    wait_time_sec := 3, timeout_sec := 15 }

/-- A dynamic obstacle that blocks clearance: `min_t = 1 < 6` and
`obstacle_traveled_s = 7`, far above `kepsilon`. -/
def obBlockW : Obstacle :=
  { id := "2", is_virtual := false, is_static := false,
    st := { min_t := 1, min_s := 2, bottom_left_s := 10, bottom_right_s := 3 } }

/-- A dynamic obstacle matching the benign exception:
`obstacle_traveled_s = 0 < kepsilon`, `min_t = 1 < 5`, `min_s = 20 > 15`. -/
def obBenignW : Obstacle :=
  { id := "3", is_virtual := false, is_static := false,
    st := { min_t := 1, min_s := 20, bottom_left_s := 5, bottom_right_s := 5 } }

/-- A reference line carrying the blocking obstacle. -/
def rliBlockW : ReferenceLineInfo :=
  { adc_sl_boundary_end_s := 101/2, obstacles := [obBlockW],
    addObstacle := fun ob => some ob,
    getReferencePoint := fun _ => rpW,
    refreshStopSignOverlap := fun _ => none }

/-- A gate-satisfied query that sees the blocking obstacle. -/
def qBlockW : CreepQuery :=
  { frame := frameFailW, rli := rliBlockW, stop_sign_overlap_end_s := 100,
    wait_time_sec := 20, timeout_sec := 15 }

/-- A concrete stop-sign overlap ending at `s = 200`. -/
def ovSS : PathOverlap := { object_id := "sign1", start_s := 195, end_s := 200 }

/-- A concrete traffic-light overlap ending at `s = 70`. -/
def ovTL : PathOverlap := { object_id := "light1", start_s := 60, end_s := 70 }

/-- A reference line that resolves exactly the stop-sign overlap id
`"sign1"`. -/
def rliResolveW : ReferenceLineInfo :=
  { adc_sl_boundary_end_s := 101/2, obstacles := [],
    addObstacle := fun ob => some ob,
    getReferencePoint := fun _ => rpW,
    refreshStopSignOverlap := fun ssid =>
      if ssid = "sign1" then some ovSS else none }

/-- The concrete virtual stop-wall obstacle returned by the succeeding
frame fixture. -/
def obVirtualW : Obstacle :=
  { id := "CREEP_SS", is_virtual := true, is_static := true,
    st := { min_t := 0, min_s := 0, bottom_left_s := 0, bottom_right_s := 0 } }

/-- A concrete frame whose obstacle creation always succeeds with
`obVirtualW`. -/
def frameOkW : Frame := { createStopObstacle := fun _ _ _ => some obVirtualW }

/-! ### Evaluation lemmas for the fixtures -/

/-- The gate holds for `qClearW` (via the timeout branch: the distance
branch compares 50 against 2). -/
theorem qClearW_gate : creepGate cfgW qClearW = true := by
  norm_num [creepGate, creepStopS, FindCreepDistance, cfgW, qClearW,
    rliClearW]

/-- `qClearW` carries no obstacles, so every obstacle is far away. -/
theorem qClearW_clear : allFarAway cfgW qClearW.rli.obstacles = true := by
  simp [allFarAway, qClearW, rliClearW]

/-- The gate fails for `qGateOffW`: distance 50 is not below 2 and wait
time 3 is below timeout 15. -/
theorem qGateOffW_gate : creepGate cfgW qGateOffW = false := by
  norm_num [creepGate, creepStopS, FindCreepDistance, cfgW, qGateOffW,
    rliClearW]

/-- The gate holds for `qBlockW` (timeout branch). -/
theorem qBlockW_gate : creepGate cfgW qBlockW = true := by
  norm_num [creepGate, creepStopS, FindCreepDistance, cfgW, qBlockW,
    rliBlockW]

/-- The obstacle of `qBlockW` blocks, so not every obstacle is far
away. -/
theorem qBlockW_blocked : allFarAway cfgW qBlockW.rli.obstacles = false := by
  norm_num [allFarAway, obstacleBlocks, qBlockW, rliBlockW, obBlockW,
    kepsilon, cfgW]

/-! ### Step lemmas for the debounce state machine -/

/-- A gate-satisfied clear sample with counter below 4 advances the
counter by one and does not fire. -/
theorem checkCreepDone_clear_step (cfg : DeciderCreepConfig)
    (q : CreepQuery) (c : ℕ) (hg : creepGate cfg q = true)
    (hc : allFarAway cfg q.rli.obstacles = true) (hlt : c < 4) :
    CheckCreepDone cfg q c = (false, c + 1) := by
  have hmod : (c + 1) % 4294967296 = c + 1 := Nat.mod_eq_of_lt (by omega)
  simp only [CheckCreepDone, hg, hc, if_true]
  rw [hmod, if_neg (by omega)]

/-- A gate-satisfied clear sample at counter 4 fires and resets the
counter to 0 in the same call. -/
theorem checkCreepDone_fire_step (cfg : DeciderCreepConfig)
    (q : CreepQuery) (hg : creepGate cfg q = true)
    (hc : allFarAway cfg q.rli.obstacles = true) :
    CheckCreepDone cfg q 4 = (true, 0) := by
  simp only [CheckCreepDone, hg, hc, if_true]
  norm_num

/-- C1: iterating `CheckCreepDone` from a debounce counter of 0 through
five consecutive gate-satisfied calls in which no obstacle blocks, each
call feeding its output counter to the next: the first four calls return
false with counters 1, 2, 3, 4 — never exceeding 4 — and the fifth call
returns true ("creep done") and resets the counter to 0 in that same
call. -/
theorem creep_done_fires_on_fifth_clear_sample
    (cfg : DeciderCreepConfig) (q1 q2 q3 q4 q5 : CreepQuery)
    (hg1 : creepGate cfg q1 = true)
    (hc1 : allFarAway cfg q1.rli.obstacles = true)
    (hg2 : creepGate cfg q2 = true)
    (hc2 : allFarAway cfg q2.rli.obstacles = true)
    (hg3 : creepGate cfg q3 = true)
    (hc3 : allFarAway cfg q3.rli.obstacles = true)
    (hg4 : creepGate cfg q4 = true)
    (hc4 : allFarAway cfg q4.rli.obstacles = true)
    (hg5 : creepGate cfg q5 = true)
    (hc5 : allFarAway cfg q5.rli.obstacles = true) :
    CheckCreepDone cfg q1 0 = (false, 1) ∧
    CheckCreepDone cfg q2 1 = (false, 2) ∧
    CheckCreepDone cfg q3 2 = (false, 3) ∧
    CheckCreepDone cfg q4 3 = (false, 4) ∧
    CheckCreepDone cfg q5 4 = (true, 0) :=
  ⟨checkCreepDone_clear_step cfg q1 0 hg1 hc1 (by omega),
   checkCreepDone_clear_step cfg q2 1 hg2 hc2 (by omega),
   checkCreepDone_clear_step cfg q3 2 hg3 hc3 (by omega),
   checkCreepDone_clear_step cfg q4 3 hg4 hc4 (by omega),
   checkCreepDone_fire_step cfg q5 hg5 hc5⟩

/-- Witness for C1 at the concrete query `qClearW`. -/
theorem creep_done_fires_on_fifth_clear_sample_wit :
    CheckCreepDone cfgW qClearW 0 = (false, 1) ∧
    CheckCreepDone cfgW qClearW 1 = (false, 2) ∧
    CheckCreepDone cfgW qClearW 2 = (false, 3) ∧
    CheckCreepDone cfgW qClearW 3 = (false, 4) ∧
    CheckCreepDone cfgW qClearW 4 = (true, 0) :=
  creep_done_fires_on_fifth_clear_sample cfgW
    qClearW qClearW qClearW qClearW qClearW
    qClearW_gate qClearW_clear qClearW_gate qClearW_clear
    qClearW_gate qClearW_clear qClearW_gate qClearW_clear
    qClearW_gate qClearW_clear

/-- C4: in the obstacle scan of `CheckCreepDone`, an obstacle blocks
clearance if and only if it is neither virtual nor static, its ST-boundary
`min_t` is below `min_boundary_t`, and it does not satisfy the benign
exception (`bottom_left.s - bottom_right.s < 1e-6` and
`min_t < ignore_max_st_min_t` and `min_s > ignore_min_st_min_s`); in
particular an obstacle satisfying the benign exception never blocks. -/
theorem obstacle_blocking_characterization (cfg : DeciderCreepConfig)
    (ob : Obstacle) :
    (obstacleBlocks cfg ob = true ↔
      (ob.is_virtual = false ∧ ob.is_static = false ∧
        ob.st.min_t < cfg.min_boundary_t ∧
        ¬(ob.st.bottom_left_s - ob.st.bottom_right_s < kepsilon ∧
          ob.st.min_t < cfg.ignore_max_st_min_t ∧
          ob.st.min_s > cfg.ignore_min_st_min_s)))
    ∧ (ob.st.bottom_left_s - ob.st.bottom_right_s < kepsilon →
        ob.st.min_t < cfg.ignore_max_st_min_t →
        ob.st.min_s > cfg.ignore_min_st_min_s →
        obstacleBlocks cfg ob = false) := by
  constructor
  · simp only [obstacleBlocks]
    split_ifs with h1 h2 h3
    · simp only [Bool.or_eq_true] at h1
      constructor
      · intro h; cases h
      · rintro ⟨hv, hs, -⟩
        rcases h1 with h | h
        · rw [hv] at h; cases h
        · rw [hs] at h; cases h
    · constructor
      · intro h; cases h
      · rintro ⟨-, -, -, hnb⟩; exact absurd h3 hnb
    · simp only [Bool.or_eq_true, not_or, Bool.not_eq_true] at h1
      simp [h1.1, h1.2, h2, h3]
    · simp only [Bool.or_eq_true, not_or, Bool.not_eq_true] at h1
      simp [h1.1, h1.2, h2]
  · intro ha hb hc
    simp only [obstacleBlocks]
    split_ifs with h1 h2 h3
    · rfl
    · rfl
    · exact absurd ⟨ha, hb, hc⟩ h3
    · rfl

/-- Witness for C4: the concrete benign obstacle `obBenignW` does not
block. -/
theorem obstacle_blocking_characterization_wit :
    obstacleBlocks cfgW obBenignW = false :=
  (obstacle_blocking_characterization cfgW obBenignW).2
    (by norm_num [obBenignW, kepsilon]) (by norm_num [obBenignW, cfgW])
    (by norm_num [obBenignW, cfgW])

/-- C5: whenever the gate of `CheckCreepDone` is not satisfied
(`distance_to_go ≥ max_valid_stop_distance` and
`wait_time_sec < timeout_sec`), the call returns false and leaves the
debounce counter exactly as it was. -/
theorem gate_unsatisfied_preserves_counter (cfg : DeciderCreepConfig)
    (q : CreepQuery) (c : ℕ) (h : creepGate cfg q = false) :
    CheckCreepDone cfg q c = (false, c) := by
  simp [CheckCreepDone, h]

/-- Witness for C5 at the concrete query `qGateOffW` with prior counter
7. -/
theorem gate_unsatisfied_preserves_counter_wit :
    CheckCreepDone cfgW qGateOffW 7 = (false, 7) :=
  gate_unsatisfied_preserves_counter cfgW qGateOffW 7 qGateOffW_gate

/-- C6: a single gate-satisfied call in which some obstacle blocks resets
the debounce counter to 0 and returns false, for every prior counter
value. -/
theorem blocked_sample_resets_counter (cfg : DeciderCreepConfig)
    (q : CreepQuery) (c : ℕ) (hg : creepGate cfg q = true)
    (hb : allFarAway cfg q.rli.obstacles = false) :
    CheckCreepDone cfg q c = (false, 0) := by
  simp [CheckCreepDone, hg, hb]

/-- Witness for C6 at the concrete blocked query `qBlockW` with prior
counter 42. -/
theorem blocked_sample_resets_counter_wit :
    CheckCreepDone cfgW qBlockW 42 = (false, 0) :=
  blocked_sample_resets_counter cfgW qBlockW 42 qBlockW_gate qBlockW_blocked

/-- C2: the `stop_line_s` computed by `Process` follows the stop-sign
priority: a non-empty stop-sign overlap id that resolves on the current
reference line gives that overlap's `end_s` (traffic lights ignored); a
non-empty id that does not resolve gives 0 (traffic lights are not
consulted as fallback); an empty id with at least one traffic-light
overlap gives the first such overlap's `end_s`; and 0 otherwise. -/
theorem process_stop_line_s_priority_cases (rli : ReferenceLineInfo)
    (ssid : String) (tlo : List PathOverlap) :
    (ssid.isEmpty = false → ∀ ov, rli.refreshStopSignOverlap ssid = some ov →
       processStopLineS rli ssid tlo = ov.end_s)
    ∧ (ssid.isEmpty = false → rli.refreshStopSignOverlap ssid = none →
       processStopLineS rli ssid tlo = 0)
    ∧ (ssid.isEmpty = true → ∀ ov rest, tlo = ov :: rest →
       processStopLineS rli ssid tlo = ov.end_s)
    ∧ (ssid.isEmpty = true → tlo = [] → processStopLineS rli ssid tlo = 0) := by
  refine ⟨?_, ?_, ?_, ?_⟩
  · intro he ov hov
    simp [processStopLineS, he, hov]
  · intro he hnone
    simp [processStopLineS, he, hnone]
  · intro he ov rest htlo
    simp [processStopLineS, he, htlo]
  · intro he htlo
    simp [processStopLineS, he, htlo]

/-- Witness for C2: a resolvable stop-sign id wins over a present
traffic-light overlap. -/
theorem process_stop_line_s_priority_cases_wit :
    processStopLineS rliResolveW "sign1" [ovTL] = 200 := by
  have h := (process_stop_line_s_priority_cases rliResolveW "sign1" [ovTL]).1
    (by rfl) ovSS (by simp [rliResolveW])
  simpa [ovSS] using h

/-- C3: `CheckCreepDone` evaluates obstacles and updates the debounce
counter exactly when its gate `distance_to_go < max_valid_stop_distance ∨
wait_time_sec ≥ timeout_sec` holds: under the gate the result is the
debounce step determined by the obstacle scan, without it the counter is
untouched; and the gate is precisely that disjunction of the distance and
timeout branches. -/
theorem check_creep_done_gate_controls_evaluation (cfg : DeciderCreepConfig)
    (q : CreepQuery) :
    (∀ c, creepGate cfg q = true →
       CheckCreepDone cfg q c =
         (if 5 ≤ (if allFarAway cfg q.rli.obstacles
                  then (c + 1) % 4294967296 else 0)
          then (true, 0)
          else (false,
            if allFarAway cfg q.rli.obstacles
            then (c + 1) % 4294967296 else 0)))
    ∧ (∀ c, creepGate cfg q = false → CheckCreepDone cfg q c = (false, c))
    ∧ (creepGate cfg q = true ↔
        (creepStopS q.frame q.rli q.stop_sign_overlap_end_s
            - q.rli.adc_sl_boundary_end_s < cfg.max_valid_stop_distance
          ∨ q.wait_time_sec ≥ q.timeout_sec)) := by
  refine ⟨?_, ?_, ?_⟩
  · intro c hg
    simp [CheckCreepDone, hg]
  · intro c hg
    simp [CheckCreepDone, hg]
  · simp [creepGate]

/-- Witness for C3: the spec's scenario — `wait_time_sec = 20`,
`timeout_sec = 15`, `distance_to_go = 50`, `max_valid_stop_distance = 2` —
satisfies the gate through the timeout branch, so evaluation proceeds and
the counter advances from 0 to 1. -/
theorem check_creep_done_gate_controls_evaluation_wit :
    CheckCreepDone cfgW qClearW 0 = (false, 1) := by
  have h := (check_creep_done_gate_controls_evaluation cfgW qClearW).1 0
    qClearW_gate
  rw [h]
  simp [qClearW_clear]

/-- C7: with `stop_line_s = 100`, `creep_distance = 0.5` (the fixed
`FindCreepDistance`) and `stop_distance = 1`, `BuildStopDecision` computes
`creep_stop_s = 100.5` and `stop_s = 99.5`, and when obstacle creation and
registration succeed it attaches a stop decision with reason
`STOP_REASON_CREEPER`, `distance_s = -1`, and point and heading taken from
the reference point at `stop_s`. -/
theorem build_stop_decision_scenario_values (cfg : DeciderCreepConfig)
    (frame : Frame) (rli : ReferenceLineInfo)
    (hsd : cfg.stop_distance = 1) (ob wall : Obstacle)
    (hcreate : frame.createStopObstacle rli (creepVoIdPrefixStr ++ "SS")
        (creepStopS frame rli 100) = some ob)
    (hadd : rli.addObstacle ob = some wall) :
    creepStopS frame rli 100 = 201/2 ∧
    creepStopS frame rli 100 - cfg.stop_distance = 199/2 ∧
    BuildStopDecision cfg 100 frame rli =
      (true, some ("Creeper", wall.id,
        { reason_code := StopReasonCode.STOP_REASON_CREEPER
          distance_s := -1
          stop_heading := (rli.getReferencePoint (199/2)).heading
          stop_point_x := (rli.getReferencePoint (199/2)).x
          stop_point_y := (rli.getReferencePoint (199/2)).y
          stop_point_z := 0 })) := by
  have hcs : creepStopS frame rli 100 = 201/2 := by
    norm_num [creepStopS, FindCreepDistance]
  have hss : creepStopS frame rli 100 - cfg.stop_distance = 199/2 := by
    rw [hcs, hsd]; norm_num
  refine ⟨hcs, hss, ?_⟩
  have hcreate2 : frame.createStopObstacle rli (creepVoIdPrefixStr ++ "SS")
      (201/2) = some ob := by rw [← hcs]; exact hcreate
  simp only [BuildStopDecision, hcs, hcreate2, hadd, hsd]
  norm_num

/-- Witness for C7 at the concrete succeeding frame `frameOkW`. -/
theorem build_stop_decision_scenario_values_wit :
    BuildStopDecision cfgW 100 frameOkW rliClearW =
      (true, some ("Creeper", obVirtualW.id,
        { reason_code := StopReasonCode.STOP_REASON_CREEPER
          distance_s := -1
          stop_heading := rpW.heading
          stop_point_x := rpW.x
          stop_point_y := rpW.y
          stop_point_z := 0 })) := by
  have h := (build_stop_decision_scenario_values cfgW frameOkW rliClearW
    rfl obVirtualW obVirtualW rfl rfl).2.2
  simpa [rliClearW] using h

/-- C8: a failure of virtual-obstacle creation, or of its registration in
the reference-line context, makes `BuildStopDecision` return false with no
longitudinal stop decision attached — no partial decision state. -/
theorem build_stop_decision_failure_no_partial_state
    (cfg : DeciderCreepConfig) (stop_line_s : ℚ) (frame : Frame)
    (rli : ReferenceLineInfo) :
    (frame.createStopObstacle rli (creepVoIdPrefixStr ++ "SS")
        (creepStopS frame rli stop_line_s) = none →
      BuildStopDecision cfg stop_line_s frame rli = (false, none))
    ∧ (∀ ob, frame.createStopObstacle rli (creepVoIdPrefixStr ++ "SS")
        (creepStopS frame rli stop_line_s) = some ob →
      rli.addObstacle ob = none →
      BuildStopDecision cfg stop_line_s frame rli = (false, none)) := by
  constructor
  · intro h
    simp [BuildStopDecision, h]
  · intro ob h1 h2
    simp [BuildStopDecision, h1, h2]

/-- Witness for C8 at the concrete failing frame `frameFailW`. -/
theorem build_stop_decision_failure_no_partial_state_wit :
    BuildStopDecision cfgW 100 frameFailW rliClearW = (false, none) :=
  (build_stop_decision_failure_no_partial_state cfgW 100 frameFailW
    rliClearW).1 rfl

/-- C9: `Process` returns `Status.ok` for every input — also when
`stop_line_s ≤ 0` (no stop built) and when `BuildStopDecision` fails — so
the caller cannot observe a stop-wall build failure through the returned
status. -/
theorem process_always_returns_ok (cfg : DeciderCreepConfig)
    (stop_sign_overlap_id : String)
    (traffic_light_overlaps : List PathOverlap)
    (frame : Frame) (reference_line_info : ReferenceLineInfo) :
    (Process cfg stop_sign_overlap_id traffic_light_overlaps frame
      reference_line_info).1 = Status.ok := by
  simp only [Process]
  split <;> rfl

/-- C10: `FindCreepDistance` returns exactly 0.5 for every frame and
reference line, so the creep stop position used by both
`Process`/`BuildStopDecision` and `CheckCreepDone` is always
`stop_line_s + 0.5`. -/
theorem find_creep_distance_constant_half (frame : Frame)
    (reference_line_info : ReferenceLineInfo) (stop_line_s : ℚ) :
    FindCreepDistance frame reference_line_info = 1/2 ∧
    creepStopS frame reference_line_info stop_line_s = stop_line_s + 1/2 :=
  ⟨rfl, rfl⟩
